import Mathlib

/-!
# Verification of the financial estimation engine of Property24-to-Obsidan

Shallow embedding of the numeric core of
`src/scrapper/obsidian_note_generator.py` (class `PropertyNoteGenerator`):
`calculate_transfer_duty`, `calculate_once_off_costs`,
`calculate_monthly_costs`, `calculate_bond_payment` and
`extract_numeric_value`.

Python floats are modelled as exact rationals (`ℚ`); the claims under
study are about the real-arithmetic content of the formulas, and every
constant in the source (`0.03`, `0.1075`, …) is an exact decimal.
Python strings are modelled as Lean `String`s; the string operations used
by the source (`str.replace` with a one-character pattern and empty
replacement, `str.strip`, `str.isdigit`, `int(...)`, `float(...)`) are
embedded below as list-of-character functions.
-/

namespace Property24

/-- A Python value as it can reach the financial functions: `None`, an
`int`, a `float` (modelled by its exact rational value), or a `str`. -/
inductive PyVal where
  | none : PyVal
  | int (n : ℤ) : PyVal
  | float (q : ℚ) : PyVal
  | str (s : String) : PyVal
deriving DecidableEq

/-- Python `s.replace(c, '')` for a one-character pattern `c`: every
occurrence of the character is deleted. -/
def pyRemoveChar (c : Char) (s : String) : String :=
  ⟨s.data.filter (fun x => x ≠ c)⟩

/-- Python `s.strip()`: leading and trailing whitespace removed (interior
whitespace is kept). -/
def pyStrip (s : String) : String :=
  ⟨((s.data.dropWhile Char.isWhitespace).reverse.dropWhile Char.isWhitespace).reverse⟩

/-- Python `s.isdigit()` on ASCII text: true iff the string is nonempty
and every character is a decimal digit.  (Python's `isdigit` also accepts
some non-ASCII digit characters; the inputs of this program are ASCII.) -/
def pydigit (s : String) : Bool :=
  !s.data.isEmpty && s.data.all Char.isDigit

/-- The numeric value of a string of decimal digits, as read by Python
`int(...)` on an all-digit string. -/
def digitsToNat (l : List Char) : ℕ :=
  l.foldl (fun a c => a * 10 + (c.toNat - 48)) 0

/-- Python `float(text)` on the cleaned text, modelled for the decimal
forms this program meets: an optional sign, then digits with at most one
decimal point and at least one digit (`"27000"`, `"-1.5"`, `".5"`,
`"5."`).  Anything else — in particular the empty string, text with
letters, or text with interior spaces — fails (`Option.none`, the model
of `ValueError`).  Python's exponent, underscore and `inf`/`nan` forms
are not produced by this program's inputs and are not modelled. -/
def parseFloat (s : String) : Option ℚ :=
  let l := s.data
  let signed : ℚ × List Char :=
    match l with
    | '-' :: rest => (-1, rest)
    | '+' :: rest => (1, rest)
    | _ => (1, l)
  let sign := signed.1
  let intPart := signed.2.takeWhile Char.isDigit
  let rest := signed.2.dropWhile Char.isDigit
  match rest with
  | [] =>
      if intPart.isEmpty then Option.none
      else Option.some (sign * (digitsToNat intPart : ℚ))
  | '.' :: fracRest =>
      let fracPart := fracRest.takeWhile Char.isDigit
      let tail := fracRest.dropWhile Char.isDigit
      if tail.isEmpty && !(intPart.isEmpty && fracPart.isEmpty) then
        Option.some (sign *
          ((digitsToNat intPart : ℚ) + (digitsToNat fracPart : ℚ) / 10 ^ fracPart.length))
      else Option.none
  | _ => Option.none

/-- `extract_numeric_value` (obsidian_note_generator.py, lines 256–271).

```python
if value is None: return 0.0
if isinstance(value, (int, float)): return float(value)
if isinstance(value, str):
    clean = value.replace(',', '').replace('R', '').replace('$', '').strip()
    try: return float(clean)
    except ValueError: pass
return 0.0
```

Note that `.strip()` removes only leading and trailing whitespace:
interior spaces survive into `float(...)` and make it raise. -/
def extract_numeric_value : PyVal → ℚ
  | PyVal.none => 0
  | PyVal.int n => (n : ℚ)
  | PyVal.float q => q
  | PyVal.str s =>
      match parseFloat (pyStrip (pyRemoveChar '$' (pyRemoveChar 'R' (pyRemoveChar ',' s)))) with
      | Option.some q => q
      | Option.none => 0

/-- The guard of `calculate_transfer_duty` (line 74):
`price and str(price).replace(',', '').isdigit()` — the price is truthy
and its string form, commas removed, is all decimal digits.

Per constructor, by CPython semantics of `str`:
* `None` is falsy;
* for an `int`, `str(n)` is the plain decimal numeral, with a leading
  `'-'` when `n < 0`; the test passes iff `n` is truthy (`n ≠ 0`) and
  nonnegative, i.e. iff `1 ≤ n`;
* for a `float`, `str(q)` always contains a `'.'` or an exponent /
  `inf` / `nan` marker, so `isdigit()` is false for every float;
* for a `str`, the test is taken literally. -/
def transferDutyGuard : PyVal → Bool
  | PyVal.none => false
  | PyVal.int n => decide (1 ≤ n)
  | PyVal.float _ => false
  | PyVal.str s => !s.data.isEmpty && pydigit (pyRemoveChar ',' s)

/-- `int(str(price).replace(',', ''))` (line 77), meaningful once the
guard has passed; `0` on the constructors the guard rejects. -/
def dutyPriceNum : PyVal → ℤ
  | PyVal.none => 0
  | PyVal.int n => n
  | PyVal.float _ => 0
  | PyVal.str s => (digitsToNat (pyRemoveChar ',' s).data : ℤ)

/-- `calculate_transfer_duty` (obsidian_note_generator.py, lines 59–90):
guard, then the progressive bracket table on
`price_num = int(str(price).replace(',', ''))`. -/
def calculate_transfer_duty (price : PyVal) : ℚ :=
  if transferDutyGuard price then
    let price_num : ℤ := dutyPriceNum price
    if price_num ≤ 1210000 then 0
    else if price_num ≤ 1663800 then ((price_num : ℚ) - 1210000) * 0.03
    else if price_num ≤ 2329300 then 13614 + ((price_num : ℚ) - 1663800) * 0.06
    else if price_num ≤ 2994800 then 53544 + ((price_num : ℚ) - 2329300) * 0.08
    else if price_num ≤ 13310000 then 106784 + ((price_num : ℚ) - 2994800) * 0.11
    else 1241456 + ((price_num : ℚ) - 13310000) * 0.13
  else 0

/-- The progressive bracket table exactly as the spec states it, as a
function of the numeric price: marginal rates on the excess above each
threshold.  Used to compare `calculate_transfer_duty` against the spec's
contract. -/
def dutyTable (p : ℤ) : ℚ :=
  if p ≤ 1210000 then 0
  else if p ≤ 1663800 then ((p : ℚ) - 1210000) * 0.03
  else if p ≤ 2329300 then 13614 + ((p : ℚ) - 1663800) * 0.06
  else if p ≤ 2994800 then 53544 + ((p : ℚ) - 2329300) * 0.08
  else if p ≤ 13310000 then 106784 + ((p : ℚ) - 2994800) * 0.11
  else 1241456 + ((p : ℚ) - 13310000) * 0.13

/-- `calculate_bond_payment` (obsidian_note_generator.py, lines 209–230).
`principal` is `Option ℚ` so that an absent (`None`) principal — caught
in Python by `not principal` — is representable; `years` is a natural
number as in the source (used only as the exponent `years * 12`).

```python
if not principal or principal <= 0: return 0
monthly_rate = rate / 12
num_payments = years * 12
if monthly_rate == 0: return principal / num_payments
return principal * (monthly_rate * (1 + monthly_rate)**num_payments) / ((1 + monthly_rate)**num_payments - 1)
``` -/
def calculate_bond_payment (principal : Option ℚ) (rate : ℚ) (years : ℕ) : ℚ :=
  match principal with
  | Option.none => 0
  | Option.some p =>
      if p ≤ 0 then 0
      else
        let monthly_rate := rate / 12
        let num_payments := years * 12
        if monthly_rate = 0 then p / (num_payments : ℚ)
        else p * (monthly_rate * (1 + monthly_rate) ^ num_payments) /
              ((1 + monthly_rate) ^ num_payments - 1)

/-- `calculate_bond_payment` with the source's default arguments
`rate=0.1075, years=20`. -/
def calculate_bond_payment_default (principal : Option ℚ) : ℚ :=
  calculate_bond_payment principal 0.1075 20

/-- The contract of §4.3 of the spec, stated in the spec's own case
split: absent or non-positive principal gives 0, a zero rate gives the
straight-line `principal / n`, and otherwise the annuity formula
`P * (r * (1+r)^n) / ((1+r)^n - 1)` with `r = rate/12`, `n = years*12`. -/
def bond_payment_specification (principal : Option ℚ) (rate : ℚ) (years : ℕ) : ℚ :=
  match principal with
  | Option.none => 0
  | Option.some p =>
      if p ≤ 0 then 0
      else if rate = 0 then p / ((years * 12 : ℕ) : ℚ)
      else
        let r := rate / 12
        let n := years * 12
        p * (r * (1 + r) ^ n) / ((1 + r) ^ n - 1)

/-- The once-off cost breakdown returned by `calculate_once_off_costs`. -/
structure OnceOffCosts where
  deposit : ℚ
  transfer_duty : ℚ
  bond_registration : ℚ
  transfer_costs : ℚ
  attorney_fees : ℚ
  bond_origination : ℚ
  moving_costs : ℚ
  security_setup : ℚ
  immediate_repairs : ℚ
  additional_total_once_off : ℚ
  grand_total : ℚ
deriving DecidableEq

/-- `calculate_once_off_costs` (obsidian_note_generator.py, lines
92–130).  The caller (`generate_obsidian_note`, line 289) always passes
an `int` price, so `price : ℤ` here and the transfer duty is computed on
`PyVal.int price`. -/
def calculate_once_off_costs (price : ℤ) : OnceOffCosts :=
  let deposit := (price : ℚ) * 0.10
  let transfer_duty := calculate_transfer_duty (PyVal.int price)
  let bond_amount := (price : ℚ) - deposit
  let bond_registration := bond_amount * 0.01
  let transfer_costs := (price : ℚ) * 0.01
  let attorney_fees := (price : ℚ) * 0.005
  let bond_origination := bond_amount * 0.005
  let moving_costs := (price : ℚ) * 0.002
  let security_setup := (price : ℚ) * 0.005
  let immediate_repairs := (price : ℚ) * 0.01
  let additional_total_once_off := deposit + transfer_duty + bond_registration +
    transfer_costs + attorney_fees + bond_origination + moving_costs +
    security_setup + immediate_repairs
  let grand_total := (price : ℚ) + additional_total_once_off
  { deposit := deposit
    transfer_duty := transfer_duty
    bond_registration := bond_registration
    transfer_costs := transfer_costs
    attorney_fees := attorney_fees
    bond_origination := bond_origination
    moving_costs := moving_costs
    security_setup := security_setup
    immediate_repairs := immediate_repairs
    additional_total_once_off := additional_total_once_off
    grand_total := grand_total }

/-- The monthly cost breakdown returned by `calculate_monthly_costs`. -/
structure MonthlyCosts where
  bond_payment : ℚ
  levies : ℚ
  rates_taxes : ℚ
  insurance : ℚ
  maintenance : ℚ
  utilities : ℚ
  security : ℚ
  total_monthly : ℚ
deriving DecidableEq

/-- `calculate_monthly_costs` (obsidian_note_generator.py, lines
132–180).  `levies` and `rates_taxes` arrive as arbitrary values and are
passed through `extract_numeric_value` inside the function; the bond
payment is computed with the default rate and term. -/
def calculate_monthly_costs (bond_amount : ℚ) (levies rates_taxes : PyVal)
    (price : ℚ) : MonthlyCosts :=
  let monthly_payment := calculate_bond_payment_default (Option.some bond_amount)
  let insurance := bond_amount * 0.003 / 12
  let maintenance := price * 0.01 / 12
  let utilities := max 1500 (min (price * 0.001) 3500)
  let security := max 300 (min (price * 0.0002) 800)
  let leviesNum := extract_numeric_value levies
  let ratesNum := extract_numeric_value rates_taxes
  let total_monthly := monthly_payment + leviesNum + ratesNum + insurance +
    maintenance + utilities + security
  { bond_payment := monthly_payment
    levies := leviesNum
    rates_taxes := ratesNum
    insurance := insurance
    maintenance := maintenance
    utilities := utilities
    security := security
    total_monthly := total_monthly }

/-! ## Helper lemmas -/

/-- When the guard passes, `calculate_transfer_duty` is exactly the spec's
bracket table applied to the parsed numeric price. -/
theorem duty_eq_table_of_guard (v : PyVal) (h : transferDutyGuard v = true) :
    calculate_transfer_duty v = dutyTable (dutyPriceNum v) := by
  unfold calculate_transfer_duty dutyTable
  rw [if_pos h]

/-- When the guard fails, `calculate_transfer_duty` returns 0. -/
theorem duty_eq_zero_of_guard_false (v : PyVal) (h : transferDutyGuard v = false) :
    calculate_transfer_duty v = 0 := by
  unfold calculate_transfer_duty
  rw [h]
  simp

/-! ## Claims -/

/-- C1 (amended): for every `int` price, and for every string price that
is all decimal digits once commas are removed, `calculate_transfer_duty`
returns the progressive bracket table evaluated at the numeric price (for
an `int` that is ≤ 0, both sides are 0); in particular the duty at
1,500,000 is 8,700.  (The claim's full generality fails: a `float` price
or a string with non-comma separators is rejected by the guard and maps
to 0, see the counterexample.) -/
theorem transfer_duty_matches_bracket_table :
    (∀ n : ℤ, calculate_transfer_duty (PyVal.int n) = dutyTable n) ∧
    (∀ s : String, pydigit (pyRemoveChar ',' s) = true →
      calculate_transfer_duty (PyVal.str s) =
        dutyTable ((digitsToNat (pyRemoveChar ',' s).data : ℕ) : ℤ)) ∧
    calculate_transfer_duty (PyVal.int 1500000) = 8700 := by
  refine ⟨fun n => ?_, fun s hs => ?_, ?_⟩
  · by_cases h : 1 ≤ n
    · rw [duty_eq_table_of_guard _ (by simp [transferDutyGuard, h])]
      rfl
    · rw [duty_eq_zero_of_guard_false _ (by simp [transferDutyGuard]; omega)]
      unfold dutyTable
      rw [if_pos (by omega : n ≤ 1210000)]
  · have hne : s.data ≠ [] := by
      intro h0
      rw [pydigit, pyRemoveChar, h0] at hs
      simp at hs
    have hguard : transferDutyGuard (PyVal.str s) = true := by
      simp [transferDutyGuard, hs, List.isEmpty_eq_false.mpr hne]
    rw [duty_eq_table_of_guard _ hguard]
    rfl
  · norm_num [calculate_transfer_duty, transferDutyGuard, dutyPriceNum]

/-- C1 (counterexample): the spec's "numeric string possibly containing
separators" fails for space separators: the guard rejects `"1 500 000"`
(it is not all digits after comma removal), so the duty returned is 0,
not the bracket-table value 8,700 at 1,500,000. -/
theorem transfer_duty_space_separated_counterexample :
    calculate_transfer_duty (PyVal.str "1 500 000") = 0 ∧
    dutyTable 1500000 = 8700 ∧ (0 : ℚ) ≠ 8700 := by
  refine ⟨?_, ?_, by norm_num⟩
  · rw [duty_eq_zero_of_guard_false _ (by decide)]
  · norm_num [dutyTable]

/-- C1 (witness for the amended theorem's string hypothesis): the
comma-separated all-digit string `"1,500,000"` passes the digit test and
its duty equals the bracket table at the parsed price. -/
theorem transfer_duty_matches_bracket_table_spot :
    pydigit (pyRemoveChar ',' "1,500,000") = true ∧
    calculate_transfer_duty (PyVal.str "1,500,000") =
      dutyTable ((digitsToNat (pyRemoveChar ',' "1,500,000").data : ℕ) : ℤ) :=
  ⟨by decide, transfer_duty_matches_bracket_table.2.1 "1,500,000" (by decide)⟩

/-- C4: the transfer-duty bracket table is continuous at all five
boundaries: each bracket's base constant equals the accumulated marginal
duty of all lower brackets, and the duty computed at each boundary (which
the code computes with the lower bracket's formula, the bounds being
inclusive) equals the next bracket's base constant, i.e. the next
bracket's formula with zero excess. -/
theorem transfer_duty_continuous_at_boundaries :
    (13614 : ℚ) = (1663800 - 1210000) * 0.03 ∧
    (53544 : ℚ) = 13614 + (2329300 - 1663800) * 0.06 ∧
    (106784 : ℚ) = 53544 + (2994800 - 2329300) * 0.08 ∧
    (1241456 : ℚ) = 106784 + (13310000 - 2994800) * 0.11 ∧
    calculate_transfer_duty (PyVal.int 1210000) = 0 ∧
    calculate_transfer_duty (PyVal.int 1663800) = 13614 ∧
    calculate_transfer_duty (PyVal.int 2329300) = 53544 ∧
    calculate_transfer_duty (PyVal.int 2994800) = 106784 ∧
    calculate_transfer_duty (PyVal.int 13310000) = 1241456 := by
  refine ⟨by norm_num, by norm_num, by norm_num, by norm_num, ?_, ?_, ?_, ?_, ?_⟩ <;>
    norm_num [calculate_transfer_duty, transferDutyGuard, dutyPriceNum]

/-- C10: the guard of `calculate_transfer_duty` sends every `float`,
`None`, non-positive `int`, and every string that is not all decimal
digits after comma removal (currency markers, interior spaces, decimal
points) to 0; and any value that passes the guard into the bracket
computation is a positive `int` or a comma-separated all-digit string. -/
theorem transfer_duty_guard_rejections :
    (∀ q : ℚ, calculate_transfer_duty (PyVal.float q) = 0) ∧
    calculate_transfer_duty PyVal.none = 0 ∧
    (∀ n : ℤ, n ≤ 0 → calculate_transfer_duty (PyVal.int n) = 0) ∧
    (∀ s : String, pydigit (pyRemoveChar ',' s) = false →
      calculate_transfer_duty (PyVal.str s) = 0) ∧
    calculate_transfer_duty (PyVal.str "R 1 500 000") = 0 ∧
    calculate_transfer_duty (PyVal.str "1500000.0") = 0 ∧
    (∀ v : PyVal, transferDutyGuard v = true →
      (∃ n : ℤ, v = PyVal.int n ∧ 1 ≤ n) ∨
      (∃ s : String, v = PyVal.str s ∧ pydigit (pyRemoveChar ',' s) = true)) := by
  refine ⟨fun q => ?_, ?_, fun n hn => ?_, fun s hs => ?_, ?_, ?_, fun v hv => ?_⟩
  · exact duty_eq_zero_of_guard_false _ rfl
  · exact duty_eq_zero_of_guard_false _ rfl
  · exact duty_eq_zero_of_guard_false _ (by simp [transferDutyGuard]; omega)
  · exact duty_eq_zero_of_guard_false _ (by simp [transferDutyGuard, hs])
  · exact duty_eq_zero_of_guard_false _ (by decide)
  · exact duty_eq_zero_of_guard_false _ (by decide)
  · cases v with
    | none => simp [transferDutyGuard] at hv
    | int n =>
        exact Or.inl ⟨n, rfl, of_decide_eq_true hv⟩
    | float q => simp [transferDutyGuard] at hv
    | str s =>
        rw [transferDutyGuard, Bool.and_eq_true] at hv
        exact Or.inr ⟨s, rfl, hv.2⟩

/-- C10 (witness): the guard rejections at concrete inputs — a negative
`int`, a currency-marked string — and the guard acceptance of a positive
`int`. -/
theorem transfer_duty_guard_rejections_spot :
    calculate_transfer_duty (PyVal.int (-5)) = 0 ∧
    calculate_transfer_duty (PyVal.str "R 27 000") = 0 ∧
    ((∃ n : ℤ, PyVal.int 7 = PyVal.int n ∧ 1 ≤ n) ∨
      (∃ s : String, PyVal.int 7 = PyVal.str s ∧ pydigit (pyRemoveChar ',' s) = true)) :=
  ⟨transfer_duty_guard_rejections.2.2.1 (-5) (by norm_num),
   transfer_duty_guard_rejections.2.2.2.1 "R 27 000" (by decide),
   transfer_duty_guard_rejections.2.2.2.2.2.2 (PyVal.int 7) (by decide)⟩

/-- C2 (amended): `extract_numeric_value` never fails and returns: 0 for
`None`, the numeric value unchanged for `int`/`float`, and for a string
the result of parsing it as a decimal number after removing commas, `R`
and `$` and stripping *leading and trailing* whitespace only, with 0 on
parse failure.  Interior spaces are not removed, so `"R 27 000"` parses
as `float("27 000")`, which fails, and the result is 0 (not 27,000 as
the claim's scenario states); `"abc"` gives 0 and `"R 27,000"` gives
27,000. -/
theorem extract_numeric_value_behaviour :
    extract_numeric_value PyVal.none = 0 ∧
    (∀ n : ℤ, extract_numeric_value (PyVal.int n) = (n : ℚ)) ∧
    (∀ q : ℚ, extract_numeric_value (PyVal.float q) = q) ∧
    (∀ s : String, extract_numeric_value (PyVal.str s) =
      (parseFloat (pyStrip (pyRemoveChar '$' (pyRemoveChar 'R' (pyRemoveChar ',' s))))).getD 0) ∧
    extract_numeric_value (PyVal.str "R 27 000") = 0 ∧
    extract_numeric_value (PyVal.str "abc") = 0 ∧
    extract_numeric_value (PyVal.str "R 27,000") = 27000 := by
  refine ⟨rfl, fun n => rfl, fun q => rfl, fun s => ?_, rfl, rfl, ?_⟩
  · rw [extract_numeric_value]
    cases parseFloat (pyStrip (pyRemoveChar '$' (pyRemoveChar 'R' (pyRemoveChar ',' s)))) <;> rfl
  · rw [show extract_numeric_value (PyVal.str "R 27,000") = 1 * ((27000 : ℕ) : ℚ) from rfl]
    norm_num

/-- C2 (counterexample): the claim's scenario `"R 27 000"` → 27,000
fails: `.strip()` removes only surrounding whitespace, the interior
spaces reach `float("27 000")`, the parse fails, and the function
returns 0. -/
theorem extract_numeric_value_interior_space_counterexample :
    extract_numeric_value (PyVal.str "R 27 000") = 0 ∧ (0 : ℚ) ≠ 27000 :=
  ⟨rfl, by norm_num⟩

/-- C3 (amended): at principal 900,000, annual rate 0.1075 and a
20-year term, the monthly bond payment is approximately 9,137 (within
1); the exact value is ≈ 9137.06. -/
theorem bond_payment_scenario_value :
    |calculate_bond_payment (Option.some 900000) 0.1075 20 - 9137| ≤ 1 := by
  rw [abs_le]
  constructor <;> norm_num [calculate_bond_payment]

/-- C3 (counterexample): the claimed value 9,042 is off by about 95: the
payment differs from 9,042 by more than the claimed tolerance of 1. -/
theorem bond_payment_scenario_counterexample :
    1 < |calculate_bond_payment (Option.some 900000) 0.1075 20 - 9042| := by
  have h : (95 : ℚ) < calculate_bond_payment (Option.some 900000) 0.1075 20 - 9042 := by
    norm_num [calculate_bond_payment]
  calc (1 : ℚ) < 95 := by norm_num
    _ < calculate_bond_payment (Option.some 900000) 0.1075 20 - 9042 := h
    _ ≤ |calculate_bond_payment (Option.some 900000) 0.1075 20 - 9042| := le_abs_self _

/-- C5: `calculate_bond_payment` meets the spec's case split exactly —
0 for an absent or non-positive principal, straight-line
`principal / (years*12)` for a zero rate, and the annuity formula
otherwise — and the defaults are rate 0.1075 and 20 years. -/
theorem bond_payment_meets_specification :
    (∀ (p : Option ℚ) (rate : ℚ) (years : ℕ),
      calculate_bond_payment p rate years = bond_payment_specification p rate years) ∧
    (∀ p : Option ℚ, calculate_bond_payment_default p = calculate_bond_payment p 0.1075 20) := by
  refine ⟨fun p rate years => ?_, fun p => rfl⟩
  cases p with
  | none => rfl
  | some x =>
      rw [calculate_bond_payment, bond_payment_specification]
      by_cases hx : x ≤ 0
      · simp [hx]
      · rw [if_neg hx, if_neg hx]
        by_cases hr : rate = 0
        · simp [hr]
        · have h12 : rate / 12 ≠ 0 := by
            simp [div_eq_zero_iff, hr]
          rw [if_neg h12, if_neg hr]

/-- C6: the once-off cost breakdown: deposit is 10% of price, bond
registration 1% of (price − deposit), transfer costs 1% of price,
attorney fees 0.5%, bond origination 0.5% of (price − deposit), moving
costs 0.2%, security setup 0.5%, immediate repairs 1%; the total is the
exact sum of the nine itemized components (deposit, transfer duty and
the seven fees) and the grand total is price + total. -/
theorem once_off_costs_breakdown (price : ℤ) :
    (calculate_once_off_costs price).deposit = (price : ℚ) * 0.10 ∧
    (calculate_once_off_costs price).transfer_duty =
      calculate_transfer_duty (PyVal.int price) ∧
    (calculate_once_off_costs price).bond_registration =
      ((price : ℚ) - (calculate_once_off_costs price).deposit) * 0.01 ∧
    (calculate_once_off_costs price).transfer_costs = (price : ℚ) * 0.01 ∧
    (calculate_once_off_costs price).attorney_fees = (price : ℚ) * 0.005 ∧
    (calculate_once_off_costs price).bond_origination =
      ((price : ℚ) - (calculate_once_off_costs price).deposit) * 0.005 ∧
    (calculate_once_off_costs price).moving_costs = (price : ℚ) * 0.002 ∧
    (calculate_once_off_costs price).security_setup = (price : ℚ) * 0.005 ∧
    (calculate_once_off_costs price).immediate_repairs = (price : ℚ) * 0.01 ∧
    (calculate_once_off_costs price).additional_total_once_off =
      (calculate_once_off_costs price).deposit +
      (calculate_once_off_costs price).transfer_duty +
      (calculate_once_off_costs price).bond_registration +
      (calculate_once_off_costs price).transfer_costs +
      (calculate_once_off_costs price).attorney_fees +
      (calculate_once_off_costs price).bond_origination +
      (calculate_once_off_costs price).moving_costs +
      (calculate_once_off_costs price).security_setup +
      (calculate_once_off_costs price).immediate_repairs ∧
    (calculate_once_off_costs price).grand_total =
      (price : ℚ) + (calculate_once_off_costs price).additional_total_once_off :=
  ⟨rfl, rfl, rfl, rfl, rfl, rfl, rfl, rfl, rfl, rfl, rfl⟩

/-- C7: for every price, the monthly utilities estimate is price × 0.1%
clamped to [1500, 3500] and the monthly security estimate is
price × 0.02% clamped to [300, 800], each as `max lower (min raw upper)`;
utilities is 1500 at price 0 and 3500 at price 10,000,000. -/
theorem monthly_utilities_security_clamped (b : ℚ) (l r : PyVal) (p : ℚ) :
    (calculate_monthly_costs b l r p).utilities = max 1500 (min (p * 0.001) 3500) ∧
    1500 ≤ (calculate_monthly_costs b l r p).utilities ∧
    (calculate_monthly_costs b l r p).utilities ≤ 3500 ∧
    (calculate_monthly_costs b l r p).security = max 300 (min (p * 0.0002) 800) ∧
    300 ≤ (calculate_monthly_costs b l r p).security ∧
    (calculate_monthly_costs b l r p).security ≤ 800 ∧
    (calculate_monthly_costs b l r 0).utilities = 1500 ∧
    (calculate_monthly_costs b l r 10000000).utilities = 3500 := by
  refine ⟨rfl, le_max_left _ _, max_le (by norm_num) (min_le_right _ _),
    rfl, le_max_left _ _, max_le (by norm_num) (min_le_right _ _), ?_, ?_⟩
  · show max 1500 (min ((0 : ℚ) * 0.001) 3500) = 1500
    rw [show (0 : ℚ) * 0.001 = 0 by norm_num, min_eq_left (by norm_num),
      max_eq_left (by norm_num)]
  · show max 1500 (min ((10000000 : ℚ) * 0.001) 3500) = 3500
    rw [show (10000000 : ℚ) * 0.001 = 10000 by norm_num, min_eq_right (by norm_num),
      max_eq_right (by norm_num)]

/-- C8: `calculate_monthly_costs` passes `levies` and `rates_taxes`
through `extract_numeric_value`, computes insurance as
(bond_amount × 0.3%)/12 and maintenance as (price × 1%)/12, the bond
payment with the default rate and term, and its total is the exact sum
of the seven itemized fields it returns. -/
theorem monthly_costs_total_is_sum (b : ℚ) (l r : PyVal) (p : ℚ) :
    (calculate_monthly_costs b l r p).levies = extract_numeric_value l ∧
    (calculate_monthly_costs b l r p).rates_taxes = extract_numeric_value r ∧
    (calculate_monthly_costs b l r p).insurance = b * 0.003 / 12 ∧
    (calculate_monthly_costs b l r p).maintenance = p * 0.01 / 12 ∧
    (calculate_monthly_costs b l r p).bond_payment =
      calculate_bond_payment (Option.some b) 0.1075 20 ∧
    (calculate_monthly_costs b l r p).total_monthly =
      (calculate_monthly_costs b l r p).bond_payment +
      (calculate_monthly_costs b l r p).levies +
      (calculate_monthly_costs b l r p).rates_taxes +
      (calculate_monthly_costs b l r p).insurance +
      (calculate_monthly_costs b l r p).maintenance +
      (calculate_monthly_costs b l r p).utilities +
      (calculate_monthly_costs b l r p).security :=
  ⟨rfl, rfl, rfl, rfl, rfl, rfl⟩

/-- The per-unit-of-principal factor of the bond payment: for a positive
principal the payment is `principal * bondFactor rate years`. -/
def bondFactor (rate : ℚ) (years : ℕ) : ℚ :=
  if rate / 12 = 0 then (((years * 12 : ℕ) : ℚ))⁻¹
  else (rate / 12 * (1 + rate / 12) ^ (years * 12)) /
        ((1 + rate / 12) ^ (years * 12) - 1)

/-- For a positive principal the bond payment is linear in the
principal. -/
theorem bond_payment_pos_eq (p rate : ℚ) (years : ℕ) (hp : 0 < p) :
    calculate_bond_payment (Option.some p) rate years = p * bondFactor rate years := by
  rw [calculate_bond_payment, bondFactor, if_neg (not_le.mpr hp)]
  by_cases h : rate / 12 = 0
  · rw [if_pos h, if_pos h, div_eq_mul_inv]
  · rw [if_neg h, if_neg h, mul_div_assoc]

/-- For a nonnegative rate the payment factor is nonnegative. -/
theorem bondFactor_nonneg (rate : ℚ) (years : ℕ) (h : 0 ≤ rate) :
    0 ≤ bondFactor rate years := by
  rw [bondFactor]
  by_cases h0 : rate / 12 = 0
  · rw [if_pos h0]
    positivity
  · rw [if_neg h0]
    have hr : 0 ≤ rate / 12 := by positivity
    have hpow : 1 ≤ (1 + rate / 12) ^ (years * 12) :=
      one_le_pow₀ (by linarith)
    exact div_nonneg (mul_nonneg hr (by linarith)) (by linarith)

/-- The bond payment is never negative when the rate is nonnegative. -/
theorem bond_payment_nonneg (p rate : ℚ) (years : ℕ) (h : 0 ≤ rate) :
    0 ≤ calculate_bond_payment (Option.some p) rate years := by
  by_cases hp : p ≤ 0
  · rw [calculate_bond_payment, if_pos hp]
  · rw [bond_payment_pos_eq _ _ _ (not_le.mp hp)]
    exact mul_nonneg (le_of_lt (not_le.mp hp)) (bondFactor_nonneg _ _ h)

/-- C9: for any fixed nonnegative rate and term, the bond payment is
monotonically increasing in the principal over nonnegative principals;
the payment at principal 0 is 0; and at rate 0 the payment for a
positive principal is exactly `principal / (years * 12)`. -/
theorem bond_payment_monotone_in_principal (rate : ℚ) (years : ℕ) (P1 P2 : ℚ)
    (hrate : 0 ≤ rate) (h1 : 0 ≤ P1) (h12 : P1 ≤ P2) :
    calculate_bond_payment (Option.some P1) rate years ≤
      calculate_bond_payment (Option.some P2) rate years ∧
    calculate_bond_payment (Option.some 0) rate years = 0 ∧
    (∀ P : ℚ, 0 < P →
      calculate_bond_payment (Option.some P) 0 years = P / ((years * 12 : ℕ) : ℚ)) := by
  refine ⟨?_, by rw [calculate_bond_payment, if_pos le_rfl], fun P hP => ?_⟩
  · by_cases hP1 : P1 ≤ 0
    · rw [calculate_bond_payment, if_pos hP1]
      exact bond_payment_nonneg _ _ _ hrate
    · have hP1' : 0 < P1 := not_le.mp hP1
      have hP2 : 0 < P2 := lt_of_lt_of_le hP1' h12
      rw [bond_payment_pos_eq _ _ _ hP1', bond_payment_pos_eq _ _ _ hP2]
      exact mul_le_mul_of_nonneg_right h12 (bondFactor_nonneg _ _ hrate)
  · rw [calculate_bond_payment, if_neg (not_le.mpr hP)]
    simp

/-- C9 (witness): the monotonicity at rate 0.1075, 20 years, principals
1 ≤ 2. -/
theorem bond_payment_monotone_in_principal_spot :
    (0 : ℚ) ≤ 0.1075 ∧ (0 : ℚ) ≤ 1 ∧ (1 : ℚ) ≤ 2 ∧
    calculate_bond_payment (Option.some 1) 0.1075 20 ≤
      calculate_bond_payment (Option.some 2) 0.1075 20 :=
  ⟨by norm_num, by norm_num, by norm_num,
    (bond_payment_monotone_in_principal 0.1075 20 1 2 (by norm_num) (by norm_num)
      (by norm_num)).1⟩

end Property24
